import Mathlib

/-!
Verification of the `metrics-exporter-tracing` crate (src/metrics-exporter-tracing/src/lib.rs).

The crate is a single file defining `TracingExporter<const L: Level, C, B>`, with
four operations: `new` (construction), `turn` (one observe→drain→emit cycle),
`run` (blocking loop: sleep interval, then turn, forever) and `async_run`
(cooperative loop: tokio interval tick, then turn, forever).

Shallow embedding conventions:
* Trait objects (`C: Observe`, `B: Builder`, `B::Output: Drain<String> + Observer`)
  become records of pure functions with explicit state passing: the controller
  value has type `γ`, the observer state has type `σ`.
* Side effects (the builder call, the observe call, the drain call, and the
  `tracing::event!` emission) are recorded as an explicit list of `Action`s in
  the order the source performs them.
* `std::time::Duration` is modelled as a `Nat` number of time units (a Rust
  `Duration` is non-negative; negative durations are not representable).
* The infinite loops are modelled by their first `n` iterations, with an
  explicit clock: `thread::sleep(self.interval)` advances the clock by the
  interval; turns themselves are instantaneous.
-/

namespace MetricsExporterTracing

/-- Severity levels of the `tracing` crate (`tracing::Level`). -/
inductive Level where
  | trace
  | debug
  | info
  | warn
  | error
deriving DecidableEq, Repr

/-- One structured log event as produced by `tracing::event!(L, "{}", output)`:
a severity level and a single string payload field. -/
structure LogEvent where
  level : Level
  message : String
deriving DecidableEq, Repr

/-- Side effects performed by the exporter, in the order the source performs
them: the builder call in `new`, the controller observe call, the observer
drain call (with its returned string), and the log-event emission. -/
inductive Action where
  | buildCall
  | observeCall
  | drainCall (result : String)
  | emit (ev : LogEvent)
deriving DecidableEq, Repr

/-- Projection of an action to the log event it emits, if any. -/
def Action.eventOf : Action → Option LogEvent
  | Action.emit ev => some ev
  | _ => none

/-- Log events contained in an action trace, in order. -/
def actionEvents (as : List Action) : List LogEvent :=
  as.filterMap Action.eventOf

/-- The `C: Observe` trait bound of `metrics_core`: `observe(&self, observer:
&mut O)` pushes current metric values into the observer, mutating it in place.
Modelled as a pure state transformer on the observer state. -/
structure ObserveImpl (γ σ : Type) where
  observe : γ → σ → σ

/-- The `B::Output: Drain<String>` trait bound: `drain(&mut self) -> String`
produces the textual snapshot and mutates (typically clears) the observer
state. Modelled as returning the string together with the new state. -/
structure DrainImpl (σ : Type) where
  drain : σ → String × σ

/-- The `B: Builder` trait bound: `build(&self) -> B::Output` constructs a
fresh observer. -/
structure BuilderImpl (β σ : Type) where
  build : β → σ

/-- The `TracingExporter` struct (source lines 22-29). The struct declaration
lists `controller`, `observer` and `interval`; the body of `new` (line 44)
additionally writes a `level` field from its runtime argument. The embedding
keeps that field exactly as `new` writes it; faithful to `turn`, `run` and
`async_run`, it is never read. The const generic `L: Level` stays a parameter
of the operations. -/
structure TracingExporter (γ σ : Type) where
  controller : γ
  observer : σ
  level : Level
  interval : Nat
deriving Repr

/-- The value returned by `new` together with the side effects construction
performs. -/
structure NewResult (γ σ : Type) where
  exporter : TracingExporter γ σ
  actions : List Action

/-- Source lines 40-47: `new(controller, builder, level, interval)` builds the
observer from the builder and assembles the struct. The source performs no
validation and has no failure path (it returns `Self`, not a `Result`). -/
def new (bi : BuilderImpl β σ) (controller : γ) (builder : β)
    (level : Level) (interval : Nat) : NewResult γ σ :=
  { exporter :=
      { controller := controller
        observer := bi.build builder
        level := level
        interval := interval }
    actions := [Action.buildCall] }

/-- The value returned by `turn` together with the side effects it performs. -/
structure TurnResult (γ σ : Type) where
  exporter : TracingExporter γ σ
  actions : List Action

/-- Source lines 60-64: `turn` runs `self.controller.observe(&mut
self.observer)`, then `let output = self.observer.drain()`, then
`tracing::event!(L, "{}", output)`. The single `drain` call is modelled by the
two projections of `di.drain observer1`. -/
def turn (L : Level) (oi : ObserveImpl γ σ) (di : DrainImpl σ)
    (e : TracingExporter γ σ) : TurnResult γ σ :=
  let observer1 := oi.observe e.controller e.observer
  let output := (di.drain observer1).1
  let observer2 := (di.drain observer1).2
  { exporter := { e with observer := observer2 }
    actions :=
      [Action.observeCall, Action.drainCall output,
        Action.emit { level := L, message := output }] }

/-- Log events emitted by one `turn`. -/
def TurnResult.events (r : TurnResult γ σ) : List LogEvent :=
  r.actions.filterMap Action.eventOf

/-- Source lines 51-57: the first `n` iterations of the infinite blocking loop
`run`. Each iteration executes `thread::sleep(self.interval)` — advancing the
clock by the interval — and then `self.turn()`. The result is the timed trace
of emitted log events (clock value at emission, paired with the event) and the
exporter state after the `n` iterations. -/
def runTrace (L : Level) (oi : ObserveImpl γ σ) (di : DrainImpl σ) :
    Nat → TracingExporter γ σ → Nat →
      List (Nat × LogEvent) × TracingExporter γ σ
  | 0, e, _ => ([], e)
  | n + 1, e, t0 =>
    let t1 := t0 + e.interval
    let r := turn L oi di e
    let rest := runTrace L oi di n r.exporter t1
    (r.events.map (fun ev => (t1, ev)) ++ rest.1, rest.2)

/-- State of a tokio interval timer. Modelled from the tokio documentation of
`tokio::time::interval`: the timer holds the deadline of the next tick and the
fixed period. -/
structure IntervalTimer where
  next : Nat
  period : Nat
deriving DecidableEq, Repr

/-- Modelled from the tokio documentation: `time::interval(period)` creates a
timer whose first tick completes immediately, i.e. its first deadline is the
creation instant itself. -/
def timeInterval (now period : Nat) : IntervalTimer :=
  { next := now, period := period }

/-- Modelled from the tokio documentation: `tick().await` completes at the
current deadline and schedules the following deadline one period later. Turns
are instantaneous in this embedding, so a deadline is never missed and the
missed-tick policy never engages. -/
def IntervalTimer.tick (iv : IntervalTimer) : Nat × IntervalTimer :=
  (iv.next, { next := iv.next + iv.period, period := iv.period })

/-- Source lines 68-74 (loop body): the first `n` iterations of the infinite
cooperative loop of `async_run`, given the current timer state. Each iteration
awaits `interval.tick()` and then runs `self.turn()`. -/
def asyncRunTrace (L : Level) (oi : ObserveImpl γ σ) (di : DrainImpl σ) :
    Nat → TracingExporter γ σ → IntervalTimer →
      List (Nat × LogEvent) × TracingExporter γ σ
  | 0, e, _ => ([], e)
  | n + 1, e, iv =>
    let t := iv.tick.1
    let iv1 := iv.tick.2
    let r := turn L oi di e
    let rest := asyncRunTrace L oi di n r.exporter iv1
    (r.events.map (fun ev => (t, ev)) ++ rest.1, rest.2)

/-- Source lines 68-74: `async_run` first creates the timer with `let mut
interval = time::interval(self.interval)` at the current instant `t0`, then
enters the loop. -/
def asyncRun (L : Level) (oi : ObserveImpl γ σ) (di : DrainImpl σ)
    (n : Nat) (e : TracingExporter γ σ) (t0 : Nat) :
    List (Nat × LogEvent) × TracingExporter γ σ :=
  asyncRunTrace L oi di n e (timeInterval t0 e.interval)

/-- Number of log events of a timed trace emitted at or before time `T`. -/
def eventsUpTo (T : Nat) (tr : List (Nat × LogEvent)) : Nat :=
  tr.countP (fun p => decide (p.1 ≤ T))

/-! Concrete collaborators used for witnesses and counterexamples: the
observer state is the pending snapshot text, `observe` overwrites it with the
current rendering, `drain` returns it and clears the state, and the builder
builds an empty observer. -/

/-- Concrete controller: observing renders the metric values a=1, b=2. -/
def demoObserveImpl : ObserveImpl Unit String :=
  { observe := fun _ _ => "a=1, b=2" }

/-- Concrete controller that leaves the observer untouched (observes an empty
registry into an accumulating observer). -/
def idObserveImpl : ObserveImpl Unit String :=
  { observe := fun _ s => s }

/-- Concrete drain: returns the accumulated text and clears the state. -/
def demoDrainImpl : DrainImpl String :=
  { drain := fun s => (s, "") }

/-- Concrete builder: a fresh observer holds the empty accumulation. -/
def demoBuilderImpl : BuilderImpl Unit String :=
  { build := fun _ => "" }

/-- Concrete exporter with interval 5 built through `new`. -/
def demoExporter : TracingExporter Unit String :=
  (new demoBuilderImpl () () Level.info 5).exporter

/-! Helper lemmas (shared; not themselves claim theorems). -/

/-- Unfolded cons form of one blocking-loop iteration. -/
lemma runTrace_succ (L : Level) (oi : ObserveImpl γ σ) (di : DrainImpl σ)
    (n : Nat) (e : TracingExporter γ σ) (t0 : Nat) :
    runTrace L oi di (n + 1) e t0 =
      ((t0 + e.interval,
          { level := L,
            message := (di.drain (oi.observe e.controller e.observer)).1 }) ::
          (runTrace L oi di n (turn L oi di e).exporter (t0 + e.interval)).1,
        (runTrace L oi di n (turn L oi di e).exporter (t0 + e.interval)).2) :=
  rfl

/-- Unfolded cons form of one cooperative-loop iteration. -/
lemma asyncRunTrace_succ (L : Level) (oi : ObserveImpl γ σ) (di : DrainImpl σ)
    (n : Nat) (e : TracingExporter γ σ) (iv : IntervalTimer) :
    asyncRunTrace L oi di (n + 1) e iv =
      ((iv.next,
          { level := L,
            message := (di.drain (oi.observe e.controller e.observer)).1 }) ::
          (asyncRunTrace L oi di n (turn L oi di e).exporter
            { next := iv.next + iv.period, period := iv.period }).1,
        (asyncRunTrace L oi di n (turn L oi di e).exporter
          { next := iv.next + iv.period, period := iv.period }).2) :=
  rfl

/-- A turn leaves the interval field unchanged. -/
@[simp] lemma turn_exporter_interval (L : Level) (oi : ObserveImpl γ σ)
    (di : DrainImpl σ) (e : TracingExporter γ σ) :
    (turn L oi di e).exporter.interval = e.interval := rfl

/-- A turn leaves the level field unchanged. -/
@[simp] lemma turn_exporter_level (L : Level) (oi : ObserveImpl γ σ)
    (di : DrainImpl σ) (e : TracingExporter γ σ) :
    (turn L oi di e).exporter.level = e.level := rfl

/-- Severity levels along a blocking-loop trace: one event per iteration, all
at the const level `L`. -/
lemma runTrace_levels (L : Level) (oi : ObserveImpl γ σ) (di : DrainImpl σ) :
    ∀ (n : Nat) (e : TracingExporter γ σ) (t0 : Nat),
      ((runTrace L oi di n e t0).1.map fun p => p.2.level) = List.replicate n L
  | 0, _, _ => rfl
  | n + 1, e, t0 => by
    rw [runTrace_succ, List.replicate_succ]
    exact congrArg (fun l => L :: l)
      (runTrace_levels L oi di n (turn L oi di e).exporter (t0 + e.interval))

/-- Severity levels along a cooperative-loop trace: one event per iteration,
all at the const level `L`. -/
lemma asyncRunTrace_levels (L : Level) (oi : ObserveImpl γ σ) (di : DrainImpl σ) :
    ∀ (n : Nat) (e : TracingExporter γ σ) (iv : IntervalTimer),
      ((asyncRunTrace L oi di n e iv).1.map fun p => p.2.level) = List.replicate n L
  | 0, _, _ => rfl
  | n + 1, e, iv => by
    rw [asyncRunTrace_succ, List.replicate_succ]
    exact congrArg (fun l => L :: l)
      (asyncRunTrace_levels L oi di n (turn L oi di e).exporter
        { next := iv.next + iv.period, period := iv.period })

/-- The blocking loop leaves the level and interval fields unchanged. -/
lemma runTrace_final (L : Level) (oi : ObserveImpl γ σ) (di : DrainImpl σ) :
    ∀ (n : Nat) (e : TracingExporter γ σ) (t0 : Nat),
      (runTrace L oi di n e t0).2.level = e.level ∧
        (runTrace L oi di n e t0).2.interval = e.interval
  | 0, _, _ => ⟨rfl, rfl⟩
  | n + 1, e, t0 => by
    rw [runTrace_succ]
    exact runTrace_final L oi di n (turn L oi di e).exporter (t0 + e.interval)

/-- The cooperative loop leaves the level and interval fields unchanged. -/
lemma asyncRunTrace_final (L : Level) (oi : ObserveImpl γ σ) (di : DrainImpl σ) :
    ∀ (n : Nat) (e : TracingExporter γ σ) (iv : IntervalTimer),
      (asyncRunTrace L oi di n e iv).2.level = e.level ∧
        (asyncRunTrace L oi di n e iv).2.interval = e.interval
  | 0, _, _ => ⟨rfl, rfl⟩
  | n + 1, e, iv => by
    rw [asyncRunTrace_succ]
    exact asyncRunTrace_final L oi di n (turn L oi di e).exporter
      { next := iv.next + iv.period, period := iv.period }

/-- The blocking-loop event trace does not depend on the stored level field. -/
lemma runTrace_level_irrel (L : Level) (oi : ObserveImpl γ σ) (di : DrainImpl σ) :
    ∀ (n : Nat) (c : γ) (o : σ) (l1 l2 : Level) (i t0 : Nat),
      (runTrace L oi di n ⟨c, o, l1, i⟩ t0).1 = (runTrace L oi di n ⟨c, o, l2, i⟩ t0).1
  | 0, _, _, _, _, _, _ => rfl
  | n + 1, c, o, l1, l2, i, t0 => by
    rw [runTrace_succ, runTrace_succ]
    exact congrArg (fun l =>
        (t0 + i,
          LogEvent.mk L ((di.drain (oi.observe c o)).1)) :: l)
      (runTrace_level_irrel L oi di n c ((di.drain (oi.observe c o)).2) l1 l2 i (t0 + i))

/-- The cooperative-loop event trace does not depend on the stored level
field. -/
lemma asyncRunTrace_level_irrel (L : Level) (oi : ObserveImpl γ σ) (di : DrainImpl σ) :
    ∀ (n : Nat) (c : γ) (o : σ) (l1 l2 : Level) (i : Nat) (iv : IntervalTimer),
      (asyncRunTrace L oi di n ⟨c, o, l1, i⟩ iv).1
        = (asyncRunTrace L oi di n ⟨c, o, l2, i⟩ iv).1
  | 0, _, _, _, _, _, _ => rfl
  | n + 1, c, o, l1, l2, i, iv => by
    rw [asyncRunTrace_succ, asyncRunTrace_succ]
    exact congrArg (fun l =>
        (iv.next,
          LogEvent.mk L ((di.drain (oi.observe c o)).1)) :: l)
      (asyncRunTrace_level_irrel L oi di n c ((di.drain (oi.observe c o)).2) l1 l2 i
        { next := iv.next + iv.period, period := iv.period })

/-- Emission times along a blocking-loop trace: the k-th iteration (k from 0)
sleeps first and emits at `t0 + (k+1) * interval`. -/
lemma runTrace_times (L : Level) (oi : ObserveImpl γ σ) (di : DrainImpl σ) :
    ∀ (n : Nat) (e : TracingExporter γ σ) (t0 : Nat),
      (runTrace L oi di n e t0).1.map Prod.fst =
        (List.range n).map (fun k => t0 + (k + 1) * e.interval)
  | 0, _, _ => rfl
  | n + 1, e, t0 => by
    have ih := runTrace_times L oi di n (turn L oi di e).exporter (t0 + e.interval)
    simp only [turn_exporter_interval] at ih
    rw [runTrace_succ, List.range_succ_eq_map, List.map_cons, List.map_cons,
      List.map_map, ih]
    refine congrArg₂ (fun a l => a :: l) (by ring) ?_
    exact congrArg (fun f => List.map f (List.range n))
      (funext fun k => by simp [Function.comp]; ring)

/-- Count of numbers below `N` in `range n`, for `N ≤ n`. -/
lemma countP_range_lt (N : Nat) :
    ∀ (n : Nat), N ≤ n → (List.range n).countP (fun k => decide (k < N)) = N := by
  intro n
  induction n with
  | zero =>
    intro h
    have h0 : N = 0 := Nat.le_zero.mp h
    subst h0
    rfl
  | succ n ih =>
    intro h
    rcases Nat.lt_or_ge N (n + 1) with hlt | hge
    · have hN : N ≤ n := Nat.lt_succ_iff.mp hlt
      rw [List.range_succ, List.countP_append, ih hN]
      simp [List.countP_cons, Nat.not_lt.mpr hN]
    · have hN : N = n + 1 := Nat.le_antisymm h hge
      subst hN
      rw [List.range_succ, List.countP_append]
      have hall : ∀ a ∈ List.range n, (fun k => decide (k < n + 1)) a = true := by
        intro a ha
        simp only [List.mem_range] at ha
        simp [Nat.lt_succ_of_lt ha]
      rw [List.countP_eq_length.mpr hall]
      simp [List.countP_cons]

/-- Count of iterations whose emission deadline `(k+1)*I` falls within `T`,
when `T` lies just past `N` whole intervals. -/
lemma countP_deadlines (I T N : Nat) (hI : 0 < I) (h1 : N * I ≤ T)
    (h2 : T < (N + 1) * I) (n : Nat) (hn : N ≤ n) :
    (List.range n).countP (fun k => decide ((k + 1) * I ≤ T)) = N := by
  have hiff : ∀ k, ((k + 1) * I ≤ T) ↔ (k < N) := by
    intro k
    constructor
    · intro hk
      by_contra hk2
      push_neg at hk2
      have hmul : (N + 1) * I ≤ (k + 1) * I :=
        Nat.mul_le_mul_right I (Nat.succ_le_succ hk2)
      omega
    · intro hk
      have hmul : (k + 1) * I ≤ N * I := Nat.mul_le_mul_right I hk
      omega
  have hext : (fun k => decide ((k + 1) * I ≤ T)) = (fun k => decide (k < N)) :=
    funext fun k => decide_eq_decide.mpr (hiff k)
  rw [hext]
  exact countP_range_lt N n hn

/-- countP over a mapped list. -/
lemma countP_of_map (p : β → Bool) (f : α → β) :
    ∀ (l : List α), (l.map f).countP p = l.countP (fun a => p (f a))
  | [] => rfl
  | a :: l => by
    simp [List.countP_cons, countP_of_map p f l]

/-! Claim theorems. -/

/-- C1: a single call to `turn` performs exactly one observe on the
controller, then exactly one drain on the observer, then emits exactly one log
event whose sole payload equals the string returned by that drain call, in
that order, with no other emission. -/
theorem turn_single_cycle (L : Level) (oi : ObserveImpl γ σ) (di : DrainImpl σ)
    (e : TracingExporter γ σ) :
    (turn L oi di e).actions =
      [Action.observeCall,
        Action.drainCall ((di.drain (oi.observe e.controller e.observer)).1),
        Action.emit
          { level := L,
            message := (di.drain (oi.observe e.controller e.observer)).1 }] :=
  rfl

/-- C2 counterexample: an exporter whose const severity parameter is `L =
info` but whose `new` call received the runtime level `debug` emits its event
at `info`, not at the level passed to `new` — `turn` emits at the const
generic `L` (source line 63), never at the runtime argument. -/
theorem turn_level_counterexample :
    ((turn Level.info demoObserveImpl demoDrainImpl
        (new demoBuilderImpl () () Level.debug 5).exporter).events.map LogEvent.level
      = [Level.info])
  ∧ Level.info ≠ Level.debug :=
  ⟨rfl, by decide⟩

/-- C2 (amended): every log event emitted by `turn` — directly or from either
run loop — carries the const severity parameter `L` of the exporter type,
whatever runtime level was passed to `new`. -/
theorem emitted_levels_eq_const (L : Level) (oi : ObserveImpl γ σ)
    (di : DrainImpl σ) (bi : BuilderImpl β σ) (c : γ) (b : β) (lvl : Level)
    (i n t0 : Nat) :
    ((turn L oi di (new bi c b lvl i).exporter).events.map LogEvent.level = [L])
  ∧ (((runTrace L oi di n (new bi c b lvl i).exporter t0).1.map fun p => p.2.level)
      = List.replicate n L)
  ∧ (((asyncRun L oi di n (new bi c b lvl i).exporter t0).1.map fun p => p.2.level)
      = List.replicate n L) :=
  ⟨rfl,
    runTrace_levels L oi di n (new bi c b lvl i).exporter t0,
    asyncRunTrace_levels L oi di n (new bi c b lvl i).exporter
      (timeInterval t0 (new bi c b lvl i).exporter.interval)⟩

/-- C3 counterexample: constructing with interval 0 succeeds — `new` has no
failure path (it returns `Self`, not a `Result`), performs no validation, and
returns a fully formed exporter whose only construction effect is the builder
call. -/
theorem new_zero_interval_succeeds :
    (new demoBuilderImpl () () Level.info 0).exporter
      = { controller := (), observer := "", level := Level.info, interval := 0 }
  ∧ (new demoBuilderImpl () () Level.info 0).actions = [Action.buildCall] :=
  ⟨rfl, rfl⟩

/-- C3 (amended): `new` performs no interval validation: for every interval,
including zero (negative durations are not representable in
`std::time::Duration`), construction succeeds and returns an exporter carrying
exactly the supplied interval; no configuration error is reported and no loop
is started at construction. -/
theorem new_never_fails (bi : BuilderImpl β σ) (c : γ) (b : β) (lvl : Level)
    (i : Nat) :
    (new bi c b lvl i).exporter
      = { controller := c, observer := bi.build b, level := lvl, interval := i }
  ∧ (new bi c b lvl i).actions = [Action.buildCall] :=
  ⟨rfl, rfl⟩

/-- C4: `async_run` is not equivalent to `run` on the first cycle — tokio's
`time::interval` completes its first tick immediately, so with interval 5 the
cooperative loop emits at times 0, 5, 10 while the blocking loop emits at 5,
10, 15: the cooperative loop emits one event before the first interval has
elapsed (at or before time 4), the blocking loop emits none. -/
theorem asyncRun_first_event_immediate :
    ((asyncRun Level.info demoObserveImpl demoDrainImpl 3 demoExporter 0).1.map Prod.fst
      = [0, 5, 10])
  ∧ ((runTrace Level.info demoObserveImpl demoDrainImpl 3 demoExporter 0).1.map Prod.fst
      = [5, 10, 15])
  ∧ eventsUpTo 4 (asyncRun Level.info demoObserveImpl demoDrainImpl 3 demoExporter 0).1 = 1
  ∧ eventsUpTo 4 (runTrace Level.info demoObserveImpl demoDrainImpl 3 demoExporter 0).1 = 0 :=
  ⟨rfl, rfl, rfl, rfl⟩

/-- C5: for every positive interval and every N, running the blocking loop for
a duration `T` just over `N` whole intervals (for at least `N` iterations)
emits exactly `N` log events by time `T`: each iteration sleeps a full
interval before its turn, so no event is emitted before the first interval
elapses. -/
theorem run_exact_event_count (L : Level) (oi : ObserveImpl γ σ)
    (di : DrainImpl σ) (e : TracingExporter γ σ) (N T n : Nat)
    (hI : 0 < e.interval) (h1 : N * e.interval ≤ T)
    (h2 : T < (N + 1) * e.interval) (hn : N ≤ n) :
    eventsUpTo T (runTrace L oi di n e 0).1 = N := by
  have hm : eventsUpTo T (runTrace L oi di n e 0).1
      = ((runTrace L oi di n e 0).1.map Prod.fst).countP (fun t => decide (t ≤ T)) :=
    (countP_of_map (fun t => decide (t ≤ T)) Prod.fst (runTrace L oi di n e 0).1).symm
  rw [hm, runTrace_times L oi di n e 0,
    countP_of_map (fun t => decide (t ≤ T)) (fun k => 0 + (k + 1) * e.interval)]
  have hz : (fun k => decide (0 + (k + 1) * e.interval ≤ T))
      = (fun k => decide ((k + 1) * e.interval ≤ T)) := by
    funext k
    rw [Nat.zero_add]
  rw [hz]
  exact countP_deadlines e.interval T N hI h1 h2 n hn

/-- C5 witness: interval 5, N = 2, T = 11, n = 4 iterations — exactly 2
events by time 11. -/
theorem run_exact_event_count_witness :
    eventsUpTo 11 (runTrace Level.info demoObserveImpl demoDrainImpl 4 demoExporter 0).1 = 2 :=
  run_exact_event_count Level.info demoObserveImpl demoDrainImpl demoExporter
    2 11 4 (by decide) (by decide) (by decide) (by decide)

/-- C7: every call to `new` invokes the builder exactly once, and construction
emits no log event and performs no other effect. -/
theorem new_builds_once_no_output (bi : BuilderImpl β σ) (c : γ) (b : β)
    (lvl : Level) (i : Nat) :
    (new bi c b lvl i).actions = [Action.buildCall]
  ∧ (new bi c b lvl i).actions.count Action.buildCall = 1
  ∧ actionEvents (new bi c b lvl i).actions = [] :=
  ⟨rfl, rfl, rfl⟩

/-- C8: the stored severity level and interval are immutable after
construction: `new` stores exactly the supplied values, and `turn`, the
blocking loop and the cooperative loop all leave both fields unchanged. -/
theorem config_immutable (L : Level) (oi : ObserveImpl γ σ) (di : DrainImpl σ)
    (bi : BuilderImpl β σ) (c : γ) (b : β) (lvl : Level) (i n t0 : Nat)
    (iv : IntervalTimer) (e : TracingExporter γ σ) :
    ((new bi c b lvl i).exporter.level = lvl
      ∧ (new bi c b lvl i).exporter.interval = i)
  ∧ ((turn L oi di e).exporter.level = e.level
      ∧ (turn L oi di e).exporter.interval = e.interval)
  ∧ ((runTrace L oi di n e t0).2.level = e.level
      ∧ (runTrace L oi di n e t0).2.interval = e.interval)
  ∧ ((asyncRunTrace L oi di n e iv).2.level = e.level
      ∧ (asyncRunTrace L oi di n e iv).2.interval = e.interval) :=
  ⟨⟨rfl, rfl⟩, ⟨rfl, rfl⟩, runTrace_final L oi di n e t0,
    asyncRunTrace_final L oi di n e iv⟩

/-- C9: two `new` calls differing only in the runtime level argument yield
observationally identical exporters — `turn` performs the same actions and
both loops produce identical timed event traces; the emitted severity is
determined solely by the const parameter `L`. -/
theorem runtime_level_noninterference (L : Level) (oi : ObserveImpl γ σ)
    (di : DrainImpl σ) (bi : BuilderImpl β σ) (c : γ) (b : β)
    (lvl1 lvl2 : Level) (i n t0 : Nat) :
    ((turn L oi di (new bi c b lvl1 i).exporter).actions
      = (turn L oi di (new bi c b lvl2 i).exporter).actions)
  ∧ ((runTrace L oi di n (new bi c b lvl1 i).exporter t0).1
      = (runTrace L oi di n (new bi c b lvl2 i).exporter t0).1)
  ∧ ((asyncRun L oi di n (new bi c b lvl1 i).exporter t0).1
      = (asyncRun L oi di n (new bi c b lvl2 i).exporter t0).1) :=
  ⟨rfl,
    runTrace_level_irrel L oi di n c (bi.build b) lvl1 lvl2 i t0,
    asyncRunTrace_level_irrel L oi di n c (bi.build b) lvl1 lvl2 i
      (timeInterval t0 i)⟩

/-- C10: `turn` emits unconditionally — when the drain call returns the empty
string, exactly one event carrying the empty payload is still emitted. -/
theorem turn_emits_on_empty_drain (L : Level) (oi : ObserveImpl γ σ)
    (di : DrainImpl σ) (e : TracingExporter γ σ)
    (h : (di.drain (oi.observe e.controller e.observer)).1 = "") :
    (turn L oi di e).events = [{ level := L, message := "" }] := by
  have hev : (turn L oi di e).events
      = [{ level := L,
            message := (di.drain (oi.observe e.controller e.observer)).1 }] := rfl
  rw [hev, h]

/-- C10 witness: an observer holding the empty accumulation drains to the
empty string, and the turn still emits exactly one (empty-payload) event. -/
theorem turn_emits_on_empty_drain_witness :
    (turn Level.info idObserveImpl demoDrainImpl demoExporter).events
      = [{ level := Level.info, message := "" }] :=
  turn_emits_on_empty_drain Level.info idObserveImpl demoDrainImpl demoExporter rfl

end MetricsExporterTracing
